import Mathlib

/-!
Verification of the connectionless Unix-domain endpoint
(`tcpip/transport/unix/connectionless.go`) of the netstack repository.

The endpoint's own logic (`Close`, `UnidirectionalConnect`, `SendMsgTo`,
`ConnectEndpoint`, `Listen`, `Accept`, `Bind`, `Readiness`) is embedded
directly from the source file.  Collaborators that live outside this
fragment (the shared `baseEndpoint`, the bounded message `queue`
package, the `waiter` event masks, the `connectedEndpoint` peer handle)
are modelled from the specification; each such definition carries a
doc comment saying so.

Go's reference semantics are rendered with values: an operation that
mutates a collaborator returns its updated value; a nil-pointer
dereference or a failing interface type assertion is rendered as the
`none` case of an `Option`-valued result.
-/

namespace Netstack

/-- Modelled from the spec: the error taxonomy of §7
(`AlreadyBound`, `BadLocalAddress`, `ConnectionRefused`,
`InvalidEndpointState`, `NotSupported`, `QueueFull`, `QueueClosed`),
plus `external n`, standing for the arbitrary error values a `Bind`
commit callback may return. -/
inductive TError where
  | AlreadyBound
  | BadLocalAddress
  | ConnectionRefused
  | InvalidEndpointState
  | NotSupported
  | QueueFull
  | QueueClosed
  | external (n : Nat)
deriving DecidableEq, Repr

/-- Modelled from the spec: a `Message` (§3) is a payload, opaque
control metadata, and an optional source address (absent when the
sender was unbound).  The Go `Message` type lives in the shared unix
file, outside this fragment. -/
structure Message where
  data : List Nat
  control : Nat
  address : Option String
deriving DecidableEq, Repr

/-- Modelled from the spec: the external bounded Receive Queue (§2, §6):
a FIFO of messages with a capacity limit and a closed flag. -/
structure Queue where
  limit : Nat
  msgs : List Message
  closed : Bool
deriving DecidableEq, Repr

/-- Modelled from the spec: a fresh open queue with the given capacity
limit (`queue.New`). -/
def queueNew (limit : Nat) : Queue :=
  { limit := limit, msgs := [], closed := false }

/-- Modelled from the spec: `enqueue(message) -> ok|full|closed` (§6);
delivery is atomic, failing immediately when the queue is closed or
has no room (§4.2). -/
def enqueue (m : Message) (q : Queue) : Except TError Queue :=
  if q.closed then .error .QueueClosed
  else if q.limit ≤ q.msgs.length then .error .QueueFull
  else .ok { q with msgs := q.msgs ++ [m] }

/-- Modelled from the spec: the queue's own "readable" predicate (§4.1):
it has data, or is closed (a closed queue is immediately readable so a
reader can learn of the closure without blocking). -/
def queueReadable (q : Queue) : Bool :=
  q.closed || !q.msgs.isEmpty

/-- Modelled from the spec: "is there room right now" (§2, §4.2): the
queue is open and below its capacity limit. -/
def queueWritable (q : Queue) : Bool :=
  !q.closed && decide (q.msgs.length < q.limit)

/-- Modelled from the spec: `CloseRecv` — instruct the queue to close,
making it permanently unwritable and waking waiters (§2, §4.1 Close). -/
def closeRecv (q : Queue) : Queue :=
  { q with closed := true }

/-- The peer handle minted by `UnidirectionalConnect`
(`connectedEndpoint` in the shared unix file, outside this fragment).
Modelled from the spec (§2, §4.2): it wraps a reference to the target's
receive queue; the back reference to the minting endpoint carried by
the Go value plays no role in this fragment and is omitted. -/
structure connectedEndpoint where
  writeQueue : Queue
deriving DecidableEq, Repr

/-- Modelled from the spec: the peer handle's `Writable()` (§4.2): a
snapshot of whether the target queue currently has room. -/
def peerWritable : Option connectedEndpoint → Bool
  | some p => queueWritable p.writeQueue
  | none => false

/-- The state of a `connectionlessEndpoint`: the fields of the shared
`baseEndpoint` that this fragment reads and writes.  `path` is the
bound address (the empty string means unbound), `connected` the
default-peer slot, `receiver` the endpoint's own receive queue
(`none` once discarded; the `queueReceiver` wrapper is collapsed into
the queue it wraps). -/
structure EndpointState where
  path : String
  connected : Option connectedEndpoint
  receiver : Option Queue
deriving DecidableEq, Repr

/-- Modelled from the spec: the capacity limit supplied at endpoint
creation (`initialLimit`, defined outside this fragment; its numeric
value is not given by the spec, any positive value serves). -/
def initialLimit : Nat := 1024

/-- `NewConnectionless`: a fresh unbound endpoint already holding a
fresh open receive queue and no peer (lines 37–43). -/
def newConnectionless : EndpointState :=
  { path := "", connected := none, receiver := some (queueNew initialLimit) }

/-- `isBound`: the endpoint is bound iff its path is non-empty
(lines 46–48). -/
def isBound (e : EndpointState) : Bool :=
  e.path != ""

/-- Modelled from the spec: `baseEndpoint.Connected()` (outside this
fragment) — whether a default peer is currently connected, i.e. the
peer slot is occupied (§3, §4.1). -/
def Connected (e : EndpointState) : Bool :=
  e.connected.isSome

/-- `Close` (lines 56–67): under the lock, if `Connected()`, instruct
the receive queue to close, discard the receiver reference and clear
the peer slot; then, if bound, clear the path.  The result's second
component is the final state of the detached queue object when
`CloseRecv` was invoked on it (`none` otherwise).  `none` overall
renders the nil-method-call fault of `e.receiver.CloseRecv()` when the
peer slot is occupied but the receiver is already gone. -/
def close (e : EndpointState) : Option (EndpointState × Option Queue) :=
  if Connected e then
    match e.receiver with
    | none => none
    | some q =>
      let e1 : EndpointState := { e with receiver := none, connected := none }
      some (if isBound e1 then { e1 with path := "" } else e1, some (closeRecv q))
  else
    some (if isBound e then { e with path := "" } else e, none)

/-- `UnidirectionalConnect` (lines 70–75): mint a peer handle wrapping
this endpoint's own receive queue.  The Go body casts `e.receiver` to
the concrete `*queueReceiver`; on every reachable state the receiver is
either that concrete type or nil, so the cast faults exactly when the
receiver is absent — rendered as `none`. -/
def unidirectionalConnect (e : EndpointState) : Option connectedEndpoint :=
  match e.receiver with
  | none => none
  | some q => some { writeQueue := q }

/-- A generic `tcpip.Endpoint` reference handed to `SendMsgTo` or
`ConnectEndpoint`: either a connectionless endpoint (the type
assertion to `ConnectionlessEndpoint` succeeds) or some other endpoint
kind (the assertion fails). -/
inductive TcpipEndpoint where
  | connectionless (e : EndpointState)
  | other
deriving DecidableEq, Repr

/-- `SendMsgTo` (lines 79–98): check the destination exposes the
connectionless capability (else 0, `InvalidEndpointState`); mint a peer
handle to it via its `UnidirectionalConnect` (faulting, `none`, when
its receiver is absent); build the message, stamping the sender's
bound address iff bound; deliver through the handle (a failed `Send`
returns 0 and the error).  On success return the payload length.  The
third component is the destination as left by the call. -/
def sendMsgTo (e : EndpointState) (v : List Nat) (c : Nat) (dst : TcpipEndpoint) :
    Option (Nat × Option TError × TcpipEndpoint) :=
  match dst with
  | .other => some (0, some .InvalidEndpointState, .other)
  | .connectionless d =>
    match unidirectionalConnect d with
    | none => none
    | some h =>
      let m : Message :=
        { data := v, control := c,
          address := if isBound e then some e.path else none }
      match enqueue m h.writeQueue with
      | .error err => some (0, some err, .connectionless d)
      | .ok q =>
        some (v.length, none, .connectionless { d with receiver := some q })

/-- `ConnectEndpoint` (lines 101–114): check the server exposes the
connectionless capability (else `ConnectionRefused`, nothing changed);
mint a peer handle from it (faulting, `none`, when its receiver is
absent) and store it in the peer slot, overwriting any previous
value. -/
def connectEndpoint (e : EndpointState) (server : TcpipEndpoint) :
    Option (EndpointState × Option TError) :=
  match server with
  | .other => some (e, some .ConnectionRefused)
  | .connectionless d =>
    match unidirectionalConnect d with
    | none => none
    | some h => some ({ e with connected := some h }, none)

/-- `Listen` (lines 117–119): always `NotSupported`. -/
def listen (_ : EndpointState) (_ : Nat) : Option TError :=
  some .NotSupported

/-- `Accept` (lines 122–124): always (no endpoint, `NotSupported`). -/
def accept (_ : EndpointState) : Option EndpointState × Option TError :=
  (none, some .NotSupported)

/-- `Bind` (lines 134–153): fail `AlreadyBound` when bound, fail
`BadLocalAddress` on the empty address, invoke the commit callback
when supplied and propagate its error verbatim, and only then persist
the address.  The callback (owned by the excluded namespace layer) is
rendered by its outcome.  The first component is the endpoint as left
by the call. -/
def bind (e : EndpointState) (addr : String)
    (commit : Option (Except TError Unit)) : EndpointState × Option TError :=
  if isBound e then (e, some .AlreadyBound)
  else if addr = "" then (e, some .BadLocalAddress)
  else
    match commit with
    | some (.error err) => (e, some err)
    | _ => ({ e with path := addr }, none)

/-- Modelled from the spec: the readable and writable bits of the
`waiter` event mask (`EventIn`, `EventOut`); distinct single bits of a
`Nat` mask. -/
def EventIn : Nat := 1

/-- The writable bit of the event mask. -/
def EventOut : Nat := 4

/-- `Readiness` (lines 157–173): readable bit iff requested and the
receiver's queue is readable; writable bit iff `Connected()` and
requested and the peer handle reports its target queue writable.
The receiver is dereferenced only when the readable bit is requested
(Go's short-circuit `&&`); that dereference faults (`none`) when the
receiver is absent. -/
def readiness (e : EndpointState) (mask : Nat) : Option Nat :=
  if mask &&& EventIn != 0 then
    match e.receiver with
    | none => none
    | some q =>
      let r := if queueReadable q then EventIn else 0
      some (if Connected e then
              if mask &&& EventOut != 0 && peerWritable e.connected then
                r ||| EventOut
              else r
            else r)
  else
    some (if Connected e then
            if mask &&& EventOut != 0 && peerWritable e.connected then
              EventOut
            else 0
          else 0)

/-- The message a `SendMsgTo` call builds before delivery
(lines 89–92): the payload, the control data, and the sender's bound
address stamped as source address iff the sender is bound. -/
def stampMsg (e : EndpointState) (v : List Nat) (c : Nat) : Message :=
  { data := v, control := c,
    address := if isBound e then some e.path else none }

/-- The destination queue after a successful delivery: the message
appended at the back (FIFO). -/
def pushMsg (q : Queue) (m : Message) : Queue :=
  { q with msgs := q.msgs ++ [m] }

/-- A bound example endpoint with a connected default peer, used for
concrete instantiations. -/
def epBoundConn : EndpointState :=
  { path := "/a", connected := some { writeQueue := queueNew 2 },
    receiver := some (queueNew 2) }

/-- A capable destination endpoint whose queue has no room
(capacity 0), used for concrete instantiations. -/
def epFull : EndpointState :=
  { path := "", connected := none,
    receiver := some { limit := 0, msgs := [], closed := false } }

/-- A capable open destination endpoint with room (capacity 2), used
for concrete instantiations. -/
def epRoom : EndpointState :=
  { path := "", connected := none, receiver := some (queueNew 2) }

/-- A bound, unconnected example endpoint, used for concrete
instantiations. -/
def epS1 : EndpointState :=
  { path := "/s1", connected := none, receiver := some (queueNew 2) }

/-- Characterization of `Close`: whenever the call completes, the path
is cleared and the peer slot is empty; the receiver is discarded (and
its queue closed) exactly in the `Connected()` branch. -/
theorem close_fields (e e' : EndpointState) (dq : Option Queue)
    (h : close e = some (e', dq)) :
    e'.path = "" ∧ e'.connected = none ∧
    (Connected e = true →
      e'.receiver = none ∧ ∃ q, e.receiver = some q ∧ dq = some (closeRecv q)) ∧
    (Connected e = false → e'.receiver = e.receiver ∧ dq = none) := by
  cases hco : e.connected with
  | some p =>
    have hc : Connected e = true := by simp [Connected, hco]
    cases hr : e.receiver with
    | none => simp [close, hc, hr] at h
    | some q =>
      simp only [close, hc, if_true, hr] at h
      by_cases hb : isBound { e with receiver := none, connected := none }
      · simp only [hb, if_true, Option.some.injEq, Prod.mk.injEq] at h
        obtain ⟨he, hd⟩ := h
        subst he
        refine ⟨rfl, rfl, fun _ => ⟨rfl, q, rfl, hd.symm⟩, fun hf => by simp [hc] at hf⟩
      · simp only [hb, if_false, Option.some.injEq, Prod.mk.injEq] at h
        obtain ⟨he, hd⟩ := h
        subst he
        have hp : e.path = "" := by
          simpa [isBound] using hb
        refine ⟨hp, rfl, fun _ => ⟨rfl, q, rfl, hd.symm⟩, fun hf => by simp [hc] at hf⟩
  | none =>
    have hc : Connected e = false := by simp [Connected, hco]
    simp only [close, hc, Bool.false_eq_true, if_false] at h
    by_cases hb : isBound e
    · simp only [hb, if_true, Option.some.injEq, Prod.mk.injEq] at h
      obtain ⟨he, hd⟩ := h
      subst he
      exact ⟨rfl, hco, fun ht => by simp [ht] at hc, fun _ => ⟨rfl, hd.symm⟩⟩
    · simp only [hb, if_false, Option.some.injEq, Prod.mk.injEq] at h
      obtain ⟨he, hd⟩ := h
      subst he
      have hp : e.path = "" := by simpa [isBound] using hb
      exact ⟨hp, hco, fun ht => by simp [ht] at hc, fun _ => ⟨rfl, hd.symm⟩⟩

/-- C1 counterexample: on a fresh endpoint — no default peer connected
— `Close` completes but the receive-queue reference is NOT discarded
and the queue is never instructed to close, refuting "regardless of
whether a default peer was connected at the time of the call". -/
theorem C1_counterexample :
    close newConnectionless = some (newConnectionless, none) ∧
    newConnectionless.receiver = some (queueNew initialLimit) := by
  constructor
  · rfl
  · rfl

/-- C1 (amended): whenever `Close` completes, the address is cleared
and the peer slot is empty afterwards; but the receive-queue reference
is discarded (after the queue is instructed to close) only when a
default peer was connected at the time of the call — otherwise the
receiver is retained and the queue is not told to close. -/
theorem C1_close_amended (e e' : EndpointState) (dq : Option Queue)
    (h : close e = some (e', dq)) :
    e'.path = "" ∧ e'.connected = none ∧
    (Connected e = true →
      e'.receiver = none ∧
      ∃ q, e.receiver = some q ∧ dq = some (closeRecv q) ∧
        (closeRecv q).closed = true) ∧
    (Connected e = false → e'.receiver = e.receiver ∧ dq = none) := by
  obtain ⟨h1, h2, h3, h4⟩ := close_fields e e' dq h
  refine ⟨h1, h2, fun hc => ?_, h4⟩
  obtain ⟨hrn, q, hq, hdq⟩ := h3 hc
  exact ⟨hrn, q, hq, hdq, rfl⟩

/-- C1 witness: the amended statement instantiated on a bound,
connected endpoint. -/
theorem C1_close_amended_witness :
    (({ path := "", connected := none, receiver := none } :
        EndpointState).path = "" ∧
     ({ path := "", connected := none, receiver := none } :
        EndpointState).connected = none ∧
     (Connected epBoundConn = true →
       ({ path := "", connected := none, receiver := none } :
          EndpointState).receiver = none ∧
       ∃ q, epBoundConn.receiver = some q ∧
         (some { limit := 2, msgs := [], closed := true } : Option Queue) =
           some (closeRecv q) ∧ (closeRecv q).closed = true) ∧
     (Connected epBoundConn = false →
       ({ path := "", connected := none, receiver := none } :
          EndpointState).receiver = epBoundConn.receiver ∧
       (some { limit := 2, msgs := [], closed := true } : Option Queue) = none)) :=
  C1_close_amended epBoundConn
    { path := "", connected := none, receiver := none }
    (some { limit := 2, msgs := [], closed := true }) (by rfl)

/-- C2: after a completed `Close`, the peer slot is empty, so a
`Readiness` call requesting both the readable and writable bits never
reports the writable bit (whenever it returns a mask at all), and
`Listen`/`Accept` still fail with `NotSupported`. -/
theorem C2_after_close (e e' : EndpointState) (dq : Option Queue) (mask b : Nat)
    (h : close e = some (e', dq))
    (hin : mask &&& EventIn ≠ 0) (_hout : mask &&& EventOut ≠ 0) :
    (∀ r, readiness e' mask = some r → r &&& EventOut = 0) ∧
    listen e' b = some TError.NotSupported ∧
    accept e' = (none, some TError.NotSupported) := by
  obtain ⟨-, h2, -, -⟩ := close_fields e e' dq h
  refine ⟨fun r hr => ?_, rfl, rfl⟩
  have hc : Connected e' = false := by simp [Connected, h2]
  have hin' : (mask &&& EventIn != 0) = true := bne_iff_ne.mpr hin
  cases hrec : e'.receiver with
  | none => simp [readiness, hin', hrec] at hr
  | some q =>
    simp only [readiness, hin', if_true, hrec, hc, Bool.false_eq_true, if_false,
      Option.some.injEq] at hr
    by_cases hq : queueReadable q = true
    · simp only [hq, if_true] at hr
      subst hr
      decide
    · simp only [hq, if_false] at hr
      subst hr
      decide

/-- C2 witness: `C2_after_close` instantiated on a fresh endpoint and
the mask requesting both bits. -/
theorem C2_after_close_witness :
    (0 : Nat) &&& EventOut = 0 ∧
    listen newConnectionless 0 = some TError.NotSupported ∧
    accept newConnectionless = (none, some TError.NotSupported) :=
  have h := C2_after_close newConnectionless newConnectionless none 5 0 (by rfl)
    (by decide) (by decide)
  ⟨h.1 0 (by rfl), h.2.1, h.2.2⟩

/-- C3: minting a peer handle requires the receiver to be present:
`UnidirectionalConnect` succeeds exactly when the receive-queue
reference is there, and after a `Close` that dropped a connected peer
(and thus discarded the receiver), both `UnidirectionalConnect` on the
endpoint and any `SendMsgTo` targeting it as destination fault on the
unguarded concrete-type cast of the absent receiver. -/
theorem C3_receiver_precondition :
    (∀ e, (unidirectionalConnect e).isSome = e.receiver.isSome) ∧
    (∀ e e' dq, close e = some (e', dq) → Connected e = true →
      unidirectionalConnect e' = none ∧
      ∀ s v c, sendMsgTo s v c (.connectionless e') = none) := by
  constructor
  · intro e
    cases hr : e.receiver with
    | none => simp [unidirectionalConnect, hr]
    | some q => simp [unidirectionalConnect, hr]
  · intro e e' dq h hc
    obtain ⟨-, -, h3, -⟩ := close_fields e e' dq h
    obtain ⟨hrn, -⟩ := h3 hc
    have hu : unidirectionalConnect e' = none := by simp [unidirectionalConnect, hrn]
    exact ⟨hu, fun s v c => by simp [sendMsgTo, hu]⟩

/-- C3 witness: `C3_receiver_precondition` instantiated on a connected
endpoint that is then closed. -/
theorem C3_receiver_precondition_witness :
    (unidirectionalConnect epBoundConn).isSome = epBoundConn.receiver.isSome ∧
    unidirectionalConnect { path := "", connected := none, receiver := none } = none ∧
    sendMsgTo newConnectionless [1] 0
      (.connectionless { path := "", connected := none, receiver := none }) = none :=
  have h := C3_receiver_precondition
  have h2 := h.2 epBoundConn { path := "", connected := none, receiver := none }
    (some { limit := 2, msgs := [], closed := true }) (by rfl) (by rfl)
  ⟨h.1 epBoundConn, h2.1, h2.2 newConnectionless [1] 0⟩

/-- C4: `Bind` on a bound endpoint fails with `AlreadyBound`; `Bind`
with the empty address on an unbound endpoint fails with
`BadLocalAddress`; in both failure cases the endpoint is returned
unchanged (in particular still unbound in the second case). -/
theorem C4_bind_failures (e : EndpointState) (addr : String)
    (commit : Option (Except TError Unit)) :
    (isBound e = true → bind e addr commit = (e, some TError.AlreadyBound)) ∧
    (isBound e = false → addr = "" →
      bind e addr commit = (e, some TError.BadLocalAddress)) := by
  constructor
  · intro hb
    simp [bind, hb]
  · intro hb ha
    simp [bind, hb, ha]

/-- C4 witness: `C4_bind_failures` instantiated on a bound endpoint
and on a fresh endpoint with the empty address. -/
theorem C4_bind_failures_witness :
    bind epBoundConn "/b" none = (epBoundConn, some TError.AlreadyBound) ∧
    bind newConnectionless "" none =
      (newConnectionless, some TError.BadLocalAddress) :=
  ⟨(C4_bind_failures epBoundConn "/b" none).1 (by rfl),
   (C4_bind_failures newConnectionless "" none).2 (by rfl) rfl⟩

/-- C5: on an unbound endpoint with a non-empty address, a failing
commit callback makes `Bind` return exactly the callback's error with
the endpoint unchanged (the address is not persisted); a succeeding or
absent callback lets `Bind` persist the address and succeed. -/
theorem C5_bind_commit (e : EndpointState) (addr : String) (err : TError)
    (hb : isBound e = false) (ha : addr ≠ "") :
    bind e addr (some (Except.error err)) = (e, some err) ∧
    bind e addr (some (Except.ok ())) = ({ e with path := addr }, none) ∧
    bind e addr none = ({ e with path := addr }, none) := by
  refine ⟨?_, ?_, ?_⟩ <;> simp [bind, hb, ha]

/-- C5 witness: `C5_bind_commit` instantiated on a fresh endpoint, a
concrete address and a concrete external callback error. -/
theorem C5_bind_commit_witness :
    bind newConnectionless "/s1" (some (Except.error (TError.external 7))) =
      (newConnectionless, some (TError.external 7)) ∧
    bind newConnectionless "/s1" (some (Except.ok ())) =
      ({ newConnectionless with path := "/s1" }, none) ∧
    bind newConnectionless "/s1" none =
      ({ newConnectionless with path := "/s1" }, none) :=
  C5_bind_commit newConnectionless "/s1" (TError.external 7) (by rfl) (by decide)

/-- C6: `SendMsgTo` to a destination lacking the connectionless
capability returns 0 bytes and `InvalidEndpointState`; and every
`SendMsgTo` that returns an error returns byte count 0 and leaves the
destination (hence its queue) unchanged. -/
theorem C6_send_failures :
    (∀ e v c, sendMsgTo e v c .other =
      some (0, some TError.InvalidEndpointState, .other)) ∧
    (∀ e v c dst n err dst', sendMsgTo e v c dst = some (n, some err, dst') →
      n = 0 ∧ dst' = dst) := by
  constructor
  · intro e v c
    rfl
  · intro e v c dst n err dst' h
    cases dst with
    | other =>
      simp only [sendMsgTo, Option.some.injEq, Prod.mk.injEq] at h
      exact ⟨h.1.symm, h.2.2.symm⟩
    | connectionless d =>
      simp only [sendMsgTo] at h
      split at h
      · cases h
      · rename_i ph hu
        split at h
        · rename_i er he
          simp only [Option.some.injEq, Prod.mk.injEq] at h
          exact ⟨h.1.symm, h.2.2.symm⟩
        · rename_i q' he
          simp only [Option.some.injEq, Prod.mk.injEq] at h
          exact absurd h.2.1 (by simp)

/-- C6 witness: `C6_send_failures` instantiated on a send to a
capable destination whose queue has no room. -/
theorem C6_send_failures_witness :
    (0 : Nat) = 0 ∧
    TcpipEndpoint.connectionless epFull = .connectionless epFull :=
  C6_send_failures.2 newConnectionless [1, 2] 0 (.connectionless epFull) 0
    TError.QueueFull (.connectionless epFull) (by rfl)

/-- Shape of a successful `SendMsgTo`: with the destination's receiver
present, its queue open and below its limit, the call returns the
payload length and appends exactly the stamped message to the
destination queue. -/
theorem sendMsgTo_ok (e : EndpointState) (v : List Nat) (c : Nat)
    (d : EndpointState) (q : Queue) (hr : d.receiver = some q)
    (hcl : q.closed = false) (hlim : q.msgs.length < q.limit) :
    sendMsgTo e v c (.connectionless d) =
      some (v.length, none,
        .connectionless { d with receiver := some (pushMsg q (stampMsg e v c)) }) := by
  have hu : unidirectionalConnect d = some { writeQueue := q } := by
    simp [unidirectionalConnect, hr]
  have hle : ¬ (q.limit ≤ q.msgs.length) := Nat.not_le.mpr hlim
  simp [sendMsgTo, hu, enqueue, hcl, hle, pushMsg, stampMsg]

/-- C7: a successful `SendMsgTo` of a payload of length N returns N
and grows the destination queue's pending-message count by exactly
one. -/
theorem C7_send_success (e : EndpointState) (v : List Nat) (c : Nat)
    (d : EndpointState) (q : Queue) (hr : d.receiver = some q)
    (hcl : q.closed = false) (hlim : q.msgs.length < q.limit) :
    ∃ q', sendMsgTo e v c (.connectionless d) =
        some (v.length, none, .connectionless { d with receiver := some q' }) ∧
      q'.msgs.length = q.msgs.length + 1 := by
  refine ⟨pushMsg q (stampMsg e v c), sendMsgTo_ok e v c d q hr hcl hlim, ?_⟩
  simp [pushMsg]

/-- C7 witness: `C7_send_success` on a three-byte payload to an open
destination with room. -/
theorem C7_send_success_witness :
    ∃ q', sendMsgTo newConnectionless [7, 8, 9] 0 (.connectionless epRoom) =
        some (3, none, .connectionless { epRoom with receiver := some q' }) ∧
      q'.msgs.length = (queueNew 2).msgs.length + 1 :=
  C7_send_success newConnectionless [7, 8, 9] 0 epRoom (queueNew 2)
    (by rfl) (by rfl) (by decide)

/-- C8: the message delivered by a successful `SendMsgTo` carries the
sender's bound address as its source address when the sender is bound,
and no source address when the sender is unbound. -/
theorem C8_source_address (e : EndpointState) (v : List Nat) (c : Nat)
    (d : EndpointState) (q : Queue) (hr : d.receiver = some q)
    (hcl : q.closed = false) (hlim : q.msgs.length < q.limit) :
    ∃ m, sendMsgTo e v c (.connectionless d) =
        some (v.length, none,
          .connectionless { d with receiver := some (pushMsg q m) }) ∧
      (isBound e = true → m.address = some e.path) ∧
      (isBound e = false → m.address = none) := by
  refine ⟨stampMsg e v c, sendMsgTo_ok e v c d q hr hcl hlim,
    fun hb => ?_, fun hb => ?_⟩ <;> simp [stampMsg, hb]

/-- C8 witness: `C8_source_address` instantiated on a bound sender
and on an unbound sender. -/
theorem C8_source_address_witness :
    (∃ m, sendMsgTo epS1 [1] 0 (.connectionless epRoom) =
        some (([1] : List Nat).length, none,
          .connectionless { epRoom with receiver := some (pushMsg (queueNew 2) m) }) ∧
      (isBound epS1 = true → m.address = some epS1.path) ∧
      (isBound epS1 = false → m.address = none)) ∧
    (∃ m, sendMsgTo newConnectionless [1] 0 (.connectionless epRoom) =
        some (([1] : List Nat).length, none,
          .connectionless { epRoom with receiver := some (pushMsg (queueNew 2) m) }) ∧
      (isBound newConnectionless = true → m.address = some newConnectionless.path) ∧
      (isBound newConnectionless = false → m.address = none)) :=
  ⟨C8_source_address epS1 [1] 0 epRoom (queueNew 2) (by rfl) (by rfl) (by decide),
   C8_source_address newConnectionless [1] 0 epRoom (queueNew 2)
     (by rfl) (by rfl) (by decide)⟩

/-- C9: `ConnectEndpoint` to a target lacking the connectionless
capability fails with `ConnectionRefused` and returns the endpoint
unchanged (previous peer and address intact); to a capable target with
its receiver present it succeeds, storing the freshly minted peer
handle over any previous peer while leaving the bound address
untouched. -/
theorem C9_connect (e : EndpointState) (d : EndpointState) (q : Queue) :
    (connectEndpoint e .other = some (e, some TError.ConnectionRefused)) ∧
    (d.receiver = some q →
      connectEndpoint e (.connectionless d) =
        some ({ e with connected := some { writeQueue := q } }, none) ∧
      ({ e with connected := some { writeQueue := q } } : EndpointState).path =
        e.path) := by
  refine ⟨rfl, fun hr => ⟨?_, rfl⟩⟩
  simp [connectEndpoint, unidirectionalConnect, hr]

/-- C9 witness: `C9_connect` instantiated on an endpoint that already
has a peer, so the success case visibly overwrites it. -/
theorem C9_connect_witness :
    (connectEndpoint epBoundConn .other =
      some (epBoundConn, some TError.ConnectionRefused)) ∧
    (connectEndpoint epBoundConn (.connectionless epRoom) =
        some ({ epBoundConn with connected := some { writeQueue := queueNew 2 } },
          none) ∧
      ({ epBoundConn with connected := some { writeQueue := queueNew 2 } } :
          EndpointState).path = epBoundConn.path) :=
  ⟨(C9_connect epBoundConn epRoom (queueNew 2)).1,
   (C9_connect epBoundConn epRoom (queueNew 2)).2 (by rfl)⟩

/-- Shape of `Readiness` when the receiver is present: it returns the
or of the readable contribution (requested and queue readable) and the
writable contribution (peer connected, requested, and the peer's
target queue has room). -/
theorem readiness_some (e : EndpointState) (q : Queue) (mask : Nat)
    (hr : e.receiver = some q) :
    readiness e mask =
      some ((if (mask &&& EventIn != 0) && queueReadable q then EventIn else 0) |||
            (if Connected e && ((mask &&& EventOut != 0) && peerWritable e.connected)
              then EventOut else 0)) := by
  by_cases hin : (mask &&& EventIn != 0) = true
  · by_cases hc : Connected e = true
    · by_cases hw : ((mask &&& EventOut != 0) && peerWritable e.connected) = true
      · simp [readiness, hin, hr, hc, hw]
      · simp [readiness, hin, hr, hc, hw]
    · simp [readiness, hin, hr, hc]
  · by_cases hc : Connected e = true
    · by_cases hw : ((mask &&& EventOut != 0) && peerWritable e.connected) = true
      · simp [readiness, hin, hr, hc, hw]
      · simp [readiness, hin, hr, hc, hw]
    · simp [readiness, hin, hr, hc]

/-- C10: on an open endpoint (receiver present), `Readiness` returns a
mask whose writable bit is set iff the caller requested it, a default
peer is connected, and that peer's target queue has room; with no peer
connected the writable bit is never reported, whatever the request
mask. -/
theorem C10_readiness (e : EndpointState) (q : Queue) (mask : Nat)
    (hr : e.receiver = some q) :
    ∃ r, readiness e mask = some r ∧
      ((r &&& EventOut ≠ 0) ↔
        (mask &&& EventOut ≠ 0 ∧ Connected e = true ∧
          peerWritable e.connected = true)) ∧
      (e.connected = none → r &&& EventOut = 0) := by
  have key : ∀ x y : Bool,
      (((if x then EventIn else 0) ||| (if y then EventOut else 0)) &&&
          EventOut ≠ 0) ↔ y = true := by
    decide
  refine ⟨_, readiness_some e q mask hr, ?_, ?_⟩
  · rw [key]
    simp only [Bool.and_eq_true, bne_iff_ne]
    constructor
    · rintro ⟨h1, h2, h3⟩
      exact ⟨h2, h1, h3⟩
    · rintro ⟨h1, h2, h3⟩
      exact ⟨h2, h1, h3⟩
  · intro hnone
    have hcf : Connected e = false := by simp [Connected, hnone]
    have key0 : ∀ x : Bool,
        (((if x then EventIn else 0) ||| (if false then EventOut else 0)) &&&
            EventOut = 0) := by
      decide
    rw [hcf]
    simpa using key0 ((mask &&& EventIn != 0) && queueReadable q)

/-- C10 witness: `C10_readiness` instantiated on a fresh open endpoint
with no peer and a mask requesting both bits. -/
theorem C10_readiness_witness :
    ∃ r, readiness newConnectionless 5 = some r ∧
      ((r &&& EventOut ≠ 0) ↔
        ((5 : Nat) &&& EventOut ≠ 0 ∧ Connected newConnectionless = true ∧
          peerWritable newConnectionless.connected = true)) ∧
      (newConnectionless.connected = none → r &&& EventOut = 0) :=
  C10_readiness newConnectionless (queueNew initialLimit) 5 (by rfl)

end Netstack
